import Mathlib

/-!
Shallow embedding of the Syrian Math Tutor backend (src/main.py): the
request-construction and provider-call pipeline behind the `/solve` and
`/chat` endpoints, with the external chat-completion provider modelled as
an oracle mapping the outbound message list to a transport outcome.
-/

namespace SyrianMathTutor

/-- One typed part of a multimodal user-message content list, as built at
src/main.py lines 246-257: an `image_url` part holding a data URI, or a
`text` part. -/
inductive Part where
  | image_url (url : String)
  | text (s : String)
deriving DecidableEq

/-- Message content: either plain text (`{"role": r, "content": "..."}`)
or an ordered list of typed parts (the image branch of `/solve`). -/
inductive Content where
  | str (s : String)
  | parts (ps : List Part)
deriving DecidableEq

/-- A chat message: a role string and content. -/
structure Message where
  role : String
  content : Content
deriving DecidableEq

/-- src/main.py line 26. -/
def GROQ_API_URL : String := "https://api.groq.com/openai/v1/chat/completions"

/-- The master tutor system prompt (src/main.py lines 29-152), transcribed
verbatim from the source. -/
def MASTER_TUTOR_PROMPT : String :=
  "You are a revolutionary AI math tutor for Syrian students that adapts like a master teacher.

🎯 CORE PRINCIPLE: ADAPTIVE INTELLIGENCE

You constantly adapt based on:
- Student's comprehension level
- Problem difficulty
- Student's language level (Arabic/English, beginner → advanced)
- Learning style (visual, verbal, story-based)
- Prior knowledge

━━━━━━━━━━━━━━━━━━━━━━━━━━━━━━━━━━━━━━━━━━━━

🇸🇾 LANGUAGE DETECTION & RESPONSE:

CRITICAL: Detect the language of the problem and respond in the SAME language!

If problem contains Arabic text → RESPOND IN SYRIAN DIALECT (اللهجة الشامية)
If problem is in English → Respond in English

SYRIAN DIALECT REQUIREMENTS when responding in Arabic:
- Use natural Syrian expressions: \"تعا نحل\" (not \"لنحل\")
- Use \"بدنا\" (we want), \"منطرح\" (we subtract), \"شايف؟\" (you see?)
- Use \"يلا بينا\", \"شو رأيك\", \"هلأ\", \"شوي\", \"كتير\"
- Always use English letters for variables: x, y, z (NEVER س، ص، ع)
- Use Western numerals: 1, 2, 3 (not ١، ٢، ٣)
- Encouragement: \"برافو!\", \"يا سلام!\", \"ولك روعة!\", \"تمام!\"

Example in Syrian:
\"أهلا فيك! تعا نحل هالمسألة سوا 😊
عندنا: 2x + 5 = 13
شايف؟ بدنا نشيل ال 5 من الطرفين...
يلا بينا!\"

━━━━━━━━━━━━━━━━━━━━━━━━━━━━━━━━━━━━━━━━━━━━

🌍 BILINGUAL TEACHING (Math Language ↔ Real World)

Simple problems: One language sufficient
Medium problems: Blend both languages  
Complex problems: Full bilingual explanation

When confused → Switch language approach
When mastering → Use advanced math language

━━━━━━━━━━━━━━━━━━━━━━━━━━━━━━━━━━━━━━━━━━━━

📚 LANGUAGE LEVELS (Adapt strategically):

LEVEL 1 - Pure Real-World: \"You have 5 apples, get 3 more...\"
LEVEL 2 - Story Math: \"Let x be cookies. Add 5. Total is 12.\"
LEVEL 3 - Simple Math: \"Solve x + 5 = 12\"
LEVEL 4 - Standard Math: \"Solve using inverse operations\"
LEVEL 5 - Advanced Math: \"Determine solution set preserving equivalence\"

Choose based on problem complexity and student level.

━━━━━━━━━━━━━━━━━━━━━━━━━━━━━━━━━━━━━━━━━━━━

🎭 TEACHING MODES (Switch as needed):

STORY_MODE: Use real-world scenarios (money, pizza, backpacks)
VISUAL_MODE: Balance scales, diagrams, step-by-step visual
SOCRATIC_MODE: Guide with questions (Why? How? What if?)
STEP_BY_STEP: Clear numbered instructions
FORMAL_LECTURE: Structured comprehensive explanation
ERROR_ANALYSIS: Gentle correction with understanding

Switch modes if student struggles!

━━━━━━━━━━━━━━━━━━━━━━━━━━━━━━━━━━━━━━━━━━━━

🔄 GOLDEN RULES (Repeat with variation):

1. Balance: \"Whatever you do to one side, MUST do to other\" ⚖️
2. No Zero Division: \"IN OTHER WORDS: Exclude values making denominator zero\" 🚫
3. Always Verify: \"Substitute back to check\" ✅
4. Order Matters: \"PEMDAS / Undo in reverse order\" 🔄

Vary phrasing each time!

━━━━━━━━━━━━━━━━━━━━━━━━━━━━━━━━━━━━━━━━━━━━

🎨 CREATIVE METAPHORS (Rotate through):

Money: wallets, savings, debt
Food: pizza, apples, chocolate
School: backpacks, pencils, books
Balance: scales, seesaws
Containers: boxes, bags, jars
Temperature: above/below zero
Sports: scores, teams
Travel: distance, speed

Match to Syrian context when relevant!

━━━━━━━━━━━━━━━━━━━━━━━━━━━━━━━━━━━━━━━━━━━━

💡 RESPONSE STRUCTURE:

1. Identify problem type & difficulty
2. Choose teaching mode & language level
3. Build intuition (if needed - story/visual)
4. Solve step-by-step with WHY explanations
5. Verify answer (math + logic check)
6. Extension questions (if appropriate)

━━━━━━━━━━━━━━━━━━━━━━━━━━━━━━━━━━━━━━━━━━━━

❤️ EMOTIONAL INTELLIGENCE:

Frustrated → Encourage, simplify
Confident → Challenge, extend
Confused → Slow down, use stories
Bored → Add complexity, make interesting

Be encouraging, patient, and excited about math!

━━━━━━━━━━━━━━━━━━━━━━━━━━━━━━━━━━━━━━━━━━━━

🎯 GOAL: Not just solve problems → TEACH UNDERSTANDING
Build confidence, create mathematicians! 🚀

Respond in Arabic if problem is in Arabic, English if in English, or mix as needed."

/-- The Python truthiness of an optional string form field:
`None` and `""` are falsy, every other string is truthy. -/
def pyTruthy : Option String → Bool
  | none => false
  | some s => s ≠ ""

/-- The per-character test `'؀' <= c <= 'ۿ'` from
src/main.py lines 241 and 263: membership in the Arabic Unicode block. -/
def isArabicChar (c : Char) : Bool :=
  0x600 ≤ c.toNat && c.toNat ≤ 0x6FF

/-- `any('؀' <= c <= 'ۿ' for c in text)`: the language detector. -/
def containsArabic (s : String) : Bool :=
  s.data.any isArabicChar

/-- The standard base64 alphabet used by Python's `base64.b64encode`. -/
def base64Alphabet : List Char :=
  ['A','B','C','D','E','F','G','H','I','J','K','L','M','N','O','P','Q','R',
   'S','T','U','V','W','X','Y','Z','a','b','c','d','e','f','g','h','i','j',
   'k','l','m','n','o','p','q','r','s','t','u','v','w','x','y','z','0','1',
   '2','3','4','5','6','7','8','9','+','/']

/-- The base64 digit for a 6-bit value. -/
def b64c (n : Nat) : Char := base64Alphabet.getD n 'A'

/-- Standard padded base64 of a byte sequence, modelling
`base64.b64encode(image_data).decode('utf-8')` (src/main.py line 235). -/
def b64encode : List Nat → String
  | [] => ""
  | [a] =>
      String.mk [b64c (a / 4), b64c (a % 4 * 16), '=', '=']
  | [a, b] =>
      String.mk [b64c (a / 4), b64c (a % 4 * 16 + b / 16), b64c (b % 16 * 4), '=']
  | a :: b :: c :: rest =>
      String.mk [b64c (a / 4), b64c (a % 4 * 16 + b / 16),
                 b64c (b % 16 * 4 + c / 64), b64c (c % 64)]
        ++ b64encode rest

/-- An uploaded image: its bytes (already read) and the declared
`content_type`, `none` when the upload carries no MIME type. -/
structure UploadFile where
  data : List Nat
  content_type : Option String
deriving DecidableEq

/-- `{"message": {"content": ...}}` inside one provider choice. -/
structure ChoiceMessage where
  content : String
deriving DecidableEq

/-- One element of the provider's `choices` list. -/
structure Choice where
  message : ChoiceMessage
deriving DecidableEq

/-- Parsed JSON body of a provider completion response. `choices = none`
models a missing `"choices"` key, `some []` an empty list. `usage` is an
opaque mapping of counter names to numbers, `none` when absent. -/
structure ProviderResponse where
  choices : Option (List Choice)
  model : Option String
  usage : Option (List (String × Nat))
deriving DecidableEq

/-- Outcome of the single outbound HTTP POST inside `call_groq_api`:
either a response with an HTTP status code and parsed JSON body, or a
network-level failure (connect error or timeout), which httpx surfaces
as an `httpx.HTTPError`. -/
inductive TransportOutcome where
  | response (status : Nat) (body : ProviderResponse)
  | networkFailure (msg : String)
deriving DecidableEq

/-- The JSON payload of the outbound provider request
(src/main.py lines 162-167). The temperature literal `0.7` is the
rational 7/10. -/
structure GroqPayload where
  model : String
  messages : List Message
  temperature : ℚ
  max_tokens : Nat
deriving DecidableEq

/-- One outbound provider request: target URL, payload and the client
timeout (src/main.py line 169, `httpx.AsyncClient(timeout=60.0)`). -/
structure GroqRequest where
  url : String
  payload : GroqPayload
  timeout : ℚ
deriving DecidableEq

/-- The one request `call_groq_api` issues (src/main.py lines 155-170). -/
def call_groq_api_request (messages : List Message) (model : String) :
    GroqRequest :=
  { url := GROQ_API_URL
    payload :=
      { model := model
        messages := messages
        temperature := 7/10
        max_tokens := 2000 }
    timeout := 60 }

/-- A Python exception as observed by the endpoint handlers: a
`fastapi.HTTPException` carrying a status code and detail, or an
`httpx.HTTPError` carrying a message. -/
inductive PyExc where
  | httpException (status_code : Nat) (detail : String)
  | httpxError (msg : String)
deriving DecidableEq

/-- `str(e)` of an exception: a starlette `HTTPException` prints as
`"<status_code>: <detail>"`; an `httpx.HTTPError` prints its message. -/
def strOfExc : PyExc → String
  | .httpException s d => toString s ++ ": " ++ d
  | .httpxError m => m

/-- `call_groq_api` (src/main.py lines 155-172) with the network modelled
by `outcome`: `response.raise_for_status()` raises an
`httpx.HTTPStatusError` (a subclass of `httpx.HTTPError`) exactly when
the status is not 2xx; a connect error or timeout raises an
`httpx.HTTPError` directly. On success the parsed JSON body is returned. -/
def call_groq_api (outcome : TransportOutcome) :
    Except PyExc ProviderResponse :=
  match outcome with
  | .response status body =>
      if 200 ≤ status && status < 300 then .ok body
      else .error (.httpxError ("HTTP status error " ++ toString status))
  | .networkFailure m => .error (.httpxError m)

/-- Body of the success JSON returned by `/solve`
(src/main.py lines 289-299). -/
structure SolveResponse where
  success : Bool
  solution : String
  model : String
  usage : List (String × Nat)
  has_image : Bool
  has_text : Bool
  teaching_mode : String
deriving DecidableEq

/-- Validation and message assembly of `solve_problem`
(src/main.py lines 219-275): the required-field check
`if not problem_text and not image` raises a 400 `HTTPException`;
otherwise the outbound list is the system prompt followed by one user
message, whose shape depends on whether an image is present. -/
def solve_messages (problem_text : Option String) (image : Option UploadFile) :
    Except PyExc (List Message) :=
  if !pyTruthy problem_text && image.isNone then
    .error (.httpException 400 "Either problem_text or image must be provided")
  else
    let messages : List Message :=
      [{ role := "system", content := .str MASTER_TUTOR_PROMPT }]
    match image with
    | some img =>
        let base64_image := b64encode img.data
        let mime_type := img.content_type.getD "image/jpeg"
        let is_arabic :=
          pyTruthy problem_text && containsArabic (problem_text.getD "")
        let instruction :=
          if is_arabic then "حل هذه المسألة من الصورة بالتفصيل بالعربي."
          else if pyTruthy problem_text then problem_text.getD ""
          else "Solve this math problem from the image."
        let user_message : Message :=
          { role := "user"
            content := .parts
              [.image_url ("data:" ++ mime_type ++ ";base64," ++ base64_image),
               .text instruction] }
        .ok (messages ++ [user_message])
    | none =>
        let t := problem_text.getD ""
        let is_arabic := containsArabic t
        let instruction :=
          if is_arabic then
            t ++ "\n\nمهم: أجب بالكامل باللهجة الشامية السورية فقط!"
          else
            t ++ "\n\nProvide adaptive teaching based on the problem difficulty."
        .ok (messages ++ [{ role := "user", content := .str instruction }])

/-- Response unwrapping of `solve_problem` (src/main.py lines 281-299):
a missing or empty `choices` list raises a 500 `HTTPException`; otherwise
the first choice's message content becomes the solution, `model` defaults
to the request model and an absent `usage` defaults to the empty mapping. -/
def solve_unwrap (problem_text : Option String) (image : Option UploadFile)
    (response_data : ProviderResponse) : Except PyExc SolveResponse :=
  match response_data.choices with
  | none => .error (.httpException 500 "Invalid response from AI service")
  | some [] => .error (.httpException 500 "Invalid response from AI service")
  | some (c :: _) =>
      .ok { success := true
            solution := c.message.content
            model := response_data.model.getD "llama-3.3-70b-versatile"
            usage := response_data.usage.getD []
            has_image := image.isSome
            has_text := problem_text.isSome
            teaching_mode := "adaptive" }

/-- The `try:` body of `solve_problem` (src/main.py lines 218-299):
validation and message assembly, then the provider call on the assembled
messages, then unwrapping. `oracle` maps the outbound message list to the
network outcome of the single provider call. -/
def solve_try (problem_text : Option String) (image : Option UploadFile)
    (oracle : List Message → TransportOutcome) : Except PyExc SolveResponse := do
  let messages ← solve_messages problem_text image
  let response_data ← call_groq_api (oracle messages)
  solve_unwrap problem_text image response_data

/-- `solve_problem` (src/main.py lines 203-310). The `except httpx.HTTPError`
clause wraps transport failures as a 500; the blanket `except Exception`
clause also catches the `HTTPException`s raised inside the `try:` body
(`HTTPException` is an `Exception` subclass), re-raising each one as a 500
whose detail embeds `str(e)` — so the 400 validation error never reaches
the client as a 400. -/
def solve_problem (problem_text : Option String) (image : Option UploadFile)
    (oracle : List Message → TransportOutcome) : Except PyExc SolveResponse :=
  match solve_try problem_text image oracle with
  | .ok v => .ok v
  | .error (.httpxError m) =>
      .error (.httpException 500 ("Error calling AI service: " ++ m))
  | .error (.httpException s d) =>
      .error (.httpException 500
        ("Internal server error: " ++ strOfExc (.httpException s d)))

/-- The outbound provider requests issued during one `solve_problem` call:
none when validation fails before the provider call, exactly one
otherwise — the code has no retry loop. -/
def solve_requests (problem_text : Option String) (image : Option UploadFile) :
    List GroqRequest :=
  match solve_messages problem_text image with
  | .error _ => []
  | .ok messages => [call_groq_api_request messages "llama-3.3-70b-versatile"]

/-- Body of the success JSON returned by `/chat`
(src/main.py lines 356-360). -/
structure ChatResponse where
  success : Bool
  response : String
  model : String
deriving DecidableEq

/-- Message assembly of `chat` (src/main.py lines 329-342). `json_loads`
models `json.loads` restricted to the shapes the endpoint uses: `none`
models a `json.JSONDecodeError`, `some l` a successfully parsed list of
role/content pairs. A falsy (empty) history string skips parsing entirely;
a parse failure is swallowed by the inner `except json.JSONDecodeError:
pass`; a parsed list is appended verbatim between the system prompt and
the new user message, which carries the caller's text unchanged. -/
def chat_messages (json_loads : String → Option (List Message))
    (message : String) (conversation_history : Option String) : List Message :=
  let messages : List Message :=
    [{ role := "system", content := .str MASTER_TUTOR_PROMPT }]
  let messages :=
    match conversation_history with
    | none => messages
    | some h =>
        if h = "" then messages
        else
          match json_loads h with
          | some history => messages ++ history
          | none => messages
  messages ++ [{ role := "user", content := .str message }]

/-- The `try:` body of `chat` (src/main.py lines 328-360). -/
def chat_try (json_loads : String → Option (List Message)) (message : String)
    (conversation_history : Option String)
    (oracle : List Message → TransportOutcome) : Except PyExc ChatResponse := do
  let messages := chat_messages json_loads message conversation_history
  let response_data ← call_groq_api (oracle messages)
  match response_data.choices with
  | none => .error (.httpException 500 "Invalid response from AI service")
  | some [] => .error (.httpException 500 "Invalid response from AI service")
  | some (c :: _) =>
      .ok { success := true
            response := c.message.content
            model := response_data.model.getD "llama-3.3-70b-versatile" }

/-- `chat` (src/main.py lines 313-371), with the same two `except` clauses
as `solve_problem`. -/
def chat (json_loads : String → Option (List Message)) (message : String)
    (conversation_history : Option String)
    (oracle : List Message → TransportOutcome) : Except PyExc ChatResponse :=
  match chat_try json_loads message conversation_history oracle with
  | .ok v => .ok v
  | .error (.httpxError m) =>
      .error (.httpException 500 ("Error calling AI service: " ++ m))
  | .error (.httpException s d) =>
      .error (.httpException 500
        ("Internal server error: " ++ strOfExc (.httpException s d)))

/-- The system-prompt message that heads every outbound sequence. -/
def systemMessage : Message :=
  { role := "system", content := .str MASTER_TUTOR_PROMPT }

/-- When at least one of `problem_text`, `image` is supplied (in the Python
truthiness sense), `solve_problem`'s validation passes and some message
list is assembled. -/
theorem solve_messages_ok_of_valid (pt : Option String) (img : Option UploadFile)
    (h : (pyTruthy pt || img.isSome) = true) :
    ∃ msgs, solve_messages pt img = .ok msgs := by
  unfold solve_messages
  have hcond : (!pyTruthy pt && img.isNone) = false := by
    cases img <;> simp_all
  rw [hcond]
  simp only [Bool.false_eq_true, if_false]
  cases img <;> exact ⟨_, rfl⟩

/-- C1 (counterexample): the spec's `/chat` scenario is false on the code —
for `message="2x+5=13"` with no history, the outbound sequence does NOT
carry the English directive appended to the user content. -/
theorem C1_counterexample :
    chat_messages (fun _ => none) "2x+5=13" none ≠
      [systemMessage,
       { role := "user",
         content := .str
           "2x+5=13\n\nProvide adaptive teaching based on the problem difficulty." }] := by
  simp [chat_messages, systemMessage]

/-- C1 (amended): for every `/chat` request the outbound user message
content is the caller's text verbatim — no directive is appended — and is
last in the sequence; the scenario yields
`[system prompt, {role:user, content:"2x+5=13"}]`. The language-dependent
directive appending exists only on the `/solve` text path, where the
non-Arabic directive is exactly the spec's English string. -/
theorem C1_chat_sends_raw_text (jl : String → Option (List Message))
    (m t : String) :
    chat_messages jl m none =
      [systemMessage, { role := "user", content := .str m }] ∧
    (∀ h, ∃ pre,
      chat_messages jl m h = pre ++ [{ role := "user", content := .str m }]) ∧
    (t ≠ "" → containsArabic t = false →
      solve_messages (some t) none = .ok
        [systemMessage,
         { role := "user", content := .str
            (t ++ "\n\nProvide adaptive teaching based on the problem difficulty.") }]) := by
  refine ⟨rfl, fun h => ⟨_, rfl⟩, fun ht harab => ?_⟩
  unfold solve_messages
  simp [pyTruthy, ht, harab, systemMessage]

/-- C1 (witness for the amended theorem at concrete inputs). -/
theorem C1_witness :
    chat_messages (fun _ => none) "2x+5=13" none =
      [systemMessage, { role := "user", content := .str "2x+5=13" }] ∧
    solve_messages (some "2x+5=13") none = .ok
      [systemMessage,
       { role := "user", content := .str
          "2x+5=13\n\nProvide adaptive teaching based on the problem difficulty." }] :=
  ⟨(C1_chat_sends_raw_text (fun _ => none) "2x+5=13" "2x+5=13").1,
   (C1_chat_sends_raw_text (fun _ => none) "2x+5=13" "2x+5=13").2.2
     (by decide) (by decide)⟩

/-- C2: the claim is right about the intent (the code raises
`HTTPException(400, "Either problem_text or image must be provided")` and
makes no provider call), but the blanket `except Exception` clause catches
that very exception and re-raises it with status 500 — so the client
observes a 500, not a 400. -/
theorem C2_missing_input_rewrapped_as_500
    (oracle : List Message → TransportOutcome) :
    solve_messages none none =
      .error (.httpException 400 "Either problem_text or image must be provided") ∧
    solve_problem none none oracle =
      .error (.httpException 500
        "Internal server error: 400: Either problem_text or image must be provided") ∧
    solve_requests none none = [] := by
  exact ⟨rfl, rfl, rfl⟩

/-- C4: the language detector returns true for every string containing an
Arabic-block codepoint (U+0600..U+06FF), false for every all-ASCII string,
false on the empty string, and the guarded form used on the image path
returns false (without error) on an absent text. -/
theorem C4_language_detector (s : String) (t : Option String) :
    ((∃ c ∈ s.data, 0x600 ≤ c.toNat ∧ c.toNat ≤ 0x6FF) → containsArabic s = true) ∧
    ((∀ c ∈ s.data, c.toNat < 0x80) → containsArabic s = false) ∧
    containsArabic "" = false ∧
    (t = none → (pyTruthy t && containsArabic (t.getD "")) = false) := by
  refine ⟨?_, ?_, rfl, ?_⟩
  · rintro ⟨c, hc, h1, h2⟩
    simp only [containsArabic, List.any_eq_true]
    exact ⟨c, hc, by simp [isArabicChar]; omega⟩
  · intro hall
    simp only [containsArabic, List.any_eq_false]
    intro c hc
    have := hall c hc
    simp [isArabicChar]
    omega
  · rintro rfl
    rfl

/-- C4 (witness): concrete evaluations of the detector. -/
theorem C4_witness :
    containsArabic "حل المعادلة" = true ∧ containsArabic "2x+5=13" = false :=
  ⟨(C4_language_detector "حل المعادلة" none).1 ⟨'ح', by decide, by decide, by decide⟩,
   (C4_language_detector "2x+5=13" none).2.1 (by decide)⟩

/-- C7: a `conversation_history` string that `json.loads` rejects is
silently discarded — the assembled messages and the endpoint result are
exactly those of the same request with the history field omitted. -/
theorem C7_invalid_history_ignored (jl : String → Option (List Message))
    (m h : String) (oracle : List Message → TransportOutcome)
    (hbad : jl h = none) :
    chat_messages jl m (some h) = chat_messages jl m none ∧
    chat jl m (some h) oracle = chat jl m none oracle := by
  have hm : chat_messages jl m (some h) = chat_messages jl m none := by
    unfold chat_messages
    by_cases hs : h = "" <;> simp [hs, hbad]
  refine ⟨hm, ?_⟩
  unfold chat chat_try
  rw [hm]

/-- C7 (witness): a concrete malformed history string is ignored. -/
theorem C7_witness :
    chat_messages (fun _ => none) "hello" (some "not valid json") =
      chat_messages (fun _ => none) "hello" none ∧
    chat (fun _ => none) "hello" (some "not valid json")
        (fun _ => .response 200 ⟨some [⟨⟨"ok"⟩⟩], none, none⟩) =
      chat (fun _ => none) "hello" none
        (fun _ => .response 200 ⟨some [⟨⟨"ok"⟩⟩], none, none⟩) :=
  C7_invalid_history_ignored (fun _ => none) "hello" "not valid json"
    (fun _ => .response 200 ⟨some [⟨⟨"ok"⟩⟩], none, none⟩) rfl

/-- C8: an empty `conversation_history` — whether the empty form string
(falsy, so parsing is skipped) or a string parsing to the empty JSON list —
yields exactly the message sequence of the same request with the history
omitted. -/
theorem C8_empty_history (jl : String → Option (List Message)) (m : String) :
    chat_messages jl m (some "") = chat_messages jl m none ∧
    (∀ h, h ≠ "" → jl h = some [] →
      chat_messages jl m (some h) = chat_messages jl m none) := by
  refine ⟨rfl, fun h hne hjl => ?_⟩
  unfold chat_messages
  simp [hne, hjl]

/-- C8 (witness): concrete empty histories. -/
theorem C8_witness :
    chat_messages (fun _ => some []) "hi" (some "") =
      chat_messages (fun _ => some []) "hi" none ∧
    chat_messages (fun _ => some []) "hi" (some "[]") =
      chat_messages (fun _ => some []) "hi" none :=
  ⟨(C8_empty_history (fun _ => some []) "hi").1,
   (C8_empty_history (fun _ => some []) "hi").2 "[]" (by decide) rfl⟩

/-- C5: every assembled outbound sequence starts with the fixed system
prompt; in `/solve` the sequence is exactly system prompt then one user
message; in `/chat` a parsed history is spliced verbatim between the
system prompt and the final user message. -/
theorem C5_message_order (pt : Option String) (img : Option UploadFile)
    (jl : String → Option (List Message)) (m h : String)
    (history : List Message) :
    (∀ msgs, solve_messages pt img = .ok msgs →
      ∃ u, msgs = [systemMessage, u] ∧ u.role = "user") ∧
    (∀ ch, (chat_messages jl m ch).head? = some systemMessage) ∧
    (h ≠ "" → jl h = some history →
      chat_messages jl m (some h) =
        systemMessage :: (history ++ [{ role := "user", content := .str m }])) := by
  refine ⟨?_, ?_, fun hne hjl => ?_⟩
  · intro msgs hmsgs
    unfold solve_messages at hmsgs
    split at hmsgs
    · exact absurd hmsgs (by simp)
    · cases img with
      | some i =>
          simp only [Except.ok.injEq] at hmsgs
          subst hmsgs
          exact ⟨_, rfl, rfl⟩
      | none =>
          simp only [Except.ok.injEq] at hmsgs
          subst hmsgs
          exact ⟨_, rfl, rfl⟩
  · intro ch
    unfold chat_messages
    cases ch with
    | none => rfl
    | some s =>
        by_cases hs : s = ""
        · simp [hs, systemMessage]
        · cases hjl2 : jl s <;> simp [hs, hjl2, systemMessage]
  · unfold chat_messages
    simp [hne, hjl, systemMessage]

/-- C5 (witness): the order invariant at concrete inputs. -/
theorem C5_witness :
    (∃ u, [systemMessage,
       Message.mk "user" (.str
         ("hi" ++ "\n\nProvide adaptive teaching based on the problem difficulty."))] =
        [systemMessage, u] ∧ u.role = "user") ∧
    chat_messages (fun _ => some [{ role := "assistant", content := .str "prev" }])
        "q" (some "[x]") =
      systemMessage :: ([{ role := "assistant", content := .str "prev" }] ++
        [{ role := "user", content := .str "q" }]) :=
  ⟨(C5_message_order (some "hi") none (fun _ => none) "q" "[x]" []).1 _ rfl,
   (C5_message_order (some "hi") none
      (fun _ => some [{ role := "assistant", content := .str "prev" }]) "q" "[x]"
      [{ role := "assistant", content := .str "prev" }]).2.2 (by decide) rfl⟩

/-- C6: with an image, the outbound user message pairs an `image_url` part
whose URL is the data URI `data:<mime>;base64,<b64-bytes>` (MIME defaults
to image/jpeg) with a text part: the fixed Arabic instruction when the
caller text is Arabic-detected, the raw caller text when truthy but not
Arabic, and the default English instruction when no (truthy) text exists. -/
theorem C6_image_user_message (pt : Option String) (img : UploadFile) :
    (pyTruthy pt = true → containsArabic (pt.getD "") = true →
      solve_messages pt (some img) = .ok
        [systemMessage,
         { role := "user", content := .parts
            [.image_url ("data:" ++ img.content_type.getD "image/jpeg" ++
               ";base64," ++ b64encode img.data),
             .text "حل هذه المسألة من الصورة بالتفصيل بالعربي."] }]) ∧
    (pyTruthy pt = true → containsArabic (pt.getD "") = false →
      solve_messages pt (some img) = .ok
        [systemMessage,
         { role := "user", content := .parts
            [.image_url ("data:" ++ img.content_type.getD "image/jpeg" ++
               ";base64," ++ b64encode img.data),
             .text (pt.getD "")] }]) ∧
    (pyTruthy pt = false →
      solve_messages pt (some img) = .ok
        [systemMessage,
         { role := "user", content := .parts
            [.image_url ("data:" ++ img.content_type.getD "image/jpeg" ++
               ";base64," ++ b64encode img.data),
             .text "Solve this math problem from the image."] }]) ∧
    (img.content_type = none →
      img.content_type.getD "image/jpeg" = "image/jpeg") := by
  refine ⟨fun h1 h2 => ?_, fun h1 h2 => ?_, fun h1 => ?_,
    fun h => by rw [h]; rfl⟩
  · unfold solve_messages
    simp [h1, h2, systemMessage]
  · unfold solve_messages
    simp [h1, h2, systemMessage]
  · unfold solve_messages
    simp [h1, systemMessage]

/-- C6 (witness): the three image-path instructions at concrete inputs. -/
theorem C6_witness :
    solve_messages (some "حل") (some ⟨[77], none⟩) = .ok
      [systemMessage,
       { role := "user", content := .parts
          [.image_url ("data:" ++ (none : Option String).getD "image/jpeg" ++
             ";base64," ++ b64encode [77]),
           .text "حل هذه المسألة من الصورة بالتفصيل بالعربي."] }] ∧
    solve_messages (some "2x") (some ⟨[77], some "image/png"⟩) = .ok
      [systemMessage,
       { role := "user", content := .parts
          [.image_url ("data:" ++ (some "image/png").getD "image/jpeg" ++
             ";base64," ++ b64encode [77]),
           .text ((some "2x").getD "")] }] ∧
    solve_messages none (some ⟨[77], none⟩) = .ok
      [systemMessage,
       { role := "user", content := .parts
          [.image_url ("data:" ++ (none : Option String).getD "image/jpeg" ++
             ";base64," ++ b64encode [77]),
           .text "Solve this math problem from the image."] }] :=
  ⟨(C6_image_user_message (some "حل") ⟨[77], none⟩).1 (by decide) (by decide),
   (C6_image_user_message (some "2x") ⟨[77], some "image/png"⟩).2.1
     (by decide) (by decide),
   (C6_image_user_message none ⟨[77], none⟩).2.2.1 rfl⟩

/-- C3: a provider body whose choices list is missing or empty makes both
endpoints return an error value with status 500 (the handler returns, it
does not crash); with a non-empty choices list the result text is the
first choice's message content, and an absent usage block defaults to the
empty mapping in the `/solve` response. -/
theorem C3_choices_unwrapping (m : String) (pt : Option String)
    (img : Option UploadFile) (body : ProviderResponse) :
    (body.choices = none ∨ body.choices = some [] →
      chat (fun _ => none) m none (fun _ => .response 200 body) =
        .error (.httpException 500
          "Internal server error: 500: Invalid response from AI service") ∧
      ((pyTruthy pt || img.isSome) = true →
        solve_problem pt img (fun _ => .response 200 body) =
          .error (.httpException 500
            "Internal server error: 500: Invalid response from AI service"))) ∧
    (∀ c cs, body.choices = some (c :: cs) →
      chat (fun _ => none) m none (fun _ => .response 200 body) =
        .ok { success := true, response := c.message.content,
              model := body.model.getD "llama-3.3-70b-versatile" } ∧
      ((pyTruthy pt || img.isSome) = true →
        ∃ r, solve_problem pt img (fun _ => .response 200 body) = .ok r ∧
          r.solution = c.message.content ∧ r.usage = body.usage.getD [] ∧
          (body.usage = none → r.usage = []))) := by
  constructor
  · intro hch
    constructor
    · unfold chat chat_try
      rcases hch with h | h <;>
        simp [call_groq_api, chat_messages, h, Bind.bind, Except.bind] <;>
        rfl
    · intro hv
      obtain ⟨msgs, hmsgs⟩ := solve_messages_ok_of_valid pt img hv
      unfold solve_problem solve_try
      rcases hch with h | h <;>
        simp [hmsgs, call_groq_api, solve_unwrap, h, Bind.bind, Except.bind] <;>
        rfl
  · intro c cs hch
    constructor
    · unfold chat chat_try
      simp [call_groq_api, chat_messages, hch, Bind.bind, Except.bind]
    · intro hv
      obtain ⟨msgs, hmsgs⟩ := solve_messages_ok_of_valid pt img hv
      unfold solve_problem solve_try
      simp [hmsgs, call_groq_api, solve_unwrap, hch, Bind.bind, Except.bind]
      intro hu
      simp [hu]

/-- C3 (witness): missing, empty and singleton choices at concrete inputs. -/
theorem C3_witness :
    chat (fun _ => none) "q" none
        (fun _ => .response 200 ⟨none, none, none⟩) =
      .error (.httpException 500
        "Internal server error: 500: Invalid response from AI service") ∧
    chat (fun _ => none) "q" none
        (fun _ => .response 200 ⟨some [], none, none⟩) =
      .error (.httpException 500
        "Internal server error: 500: Invalid response from AI service") ∧
    chat (fun _ => none) "q" none
        (fun _ => .response 200 ⟨some [⟨⟨"ans"⟩⟩], some "m1", none⟩) =
      .ok { success := true, response := "ans",
            model := (some "m1").getD "llama-3.3-70b-versatile" } ∧
    (∃ r, solve_problem (some "2x") none
        (fun _ => .response 200 ⟨some [⟨⟨"ans"⟩⟩], none, none⟩) = .ok r ∧
      r.solution = "ans" ∧
      r.usage = (none : Option (List (String × Nat))).getD [] ∧
      ((none : Option (List (String × Nat))) = none → r.usage = [])) :=
  ⟨((C3_choices_unwrapping "q" (some "2x") none ⟨none, none, none⟩).1
      (Or.inl rfl)).1,
   ((C3_choices_unwrapping "q" (some "2x") none ⟨some [], none, none⟩).1
      (Or.inr rfl)).1,
   (((C3_choices_unwrapping "q" (some "2x") none
      ⟨some [⟨⟨"ans"⟩⟩], some "m1", none⟩).2 ⟨⟨"ans"⟩⟩ [] rfl)).1,
   (((C3_choices_unwrapping "q" (some "2x") none
      ⟨some [⟨⟨"ans"⟩⟩], none, none⟩).2 ⟨⟨"ans"⟩⟩ [] rfl)).2 (by decide)⟩

/-- C9: the single outbound provider request carries fixed temperature
7/10, fixed max_tokens 2000 and the 60-unit client timeout; at most one
request is issued per endpoint call (no retry), and a network failure or a
non-2xx provider status surfaces as a 500 service-level error. -/
theorem C9_provider_call (messages : List Message) (model : String)
    (pt : Option String) (img : Option UploadFile)
    (hvalid : (pyTruthy pt || img.isSome) = true) :
    (call_groq_api_request messages model).payload.temperature = 7/10 ∧
    (call_groq_api_request messages model).payload.max_tokens = 2000 ∧
    (call_groq_api_request messages model).timeout = 60 ∧
    (call_groq_api_request messages model).url = GROQ_API_URL ∧
    (solve_requests pt img).length ≤ 1 ∧
    (∀ msgs, solve_messages pt img = .ok msgs →
      solve_requests pt img =
        [call_groq_api_request msgs "llama-3.3-70b-versatile"]) ∧
    (∀ em, solve_problem pt img (fun _ => .networkFailure em) =
      .error (.httpException 500 ("Error calling AI service: " ++ em))) ∧
    (∀ st body, st < 200 ∨ 300 ≤ st →
      solve_problem pt img (fun _ => .response st body) =
        .error (.httpException 500
          ("Error calling AI service: " ++
            ("HTTP status error " ++ toString st)))) := by
  obtain ⟨msgs, hmsgs⟩ := solve_messages_ok_of_valid pt img hvalid
  refine ⟨rfl, rfl, rfl, rfl, ?_, ?_, ?_, ?_⟩
  · unfold solve_requests
    split <;> simp
  · intro msgs2 hmsgs2
    unfold solve_requests
    rw [hmsgs2]
  · intro em
    unfold solve_problem solve_try
    simp [hmsgs, call_groq_api, Bind.bind, Except.bind]
  · intro st body hst
    have hcond : (200 ≤ st && st < 300) = false := by
      simp only [Bool.and_eq_false_iff, decide_eq_false_iff_not, not_le, not_lt]
      omega
    unfold solve_problem solve_try
    simp [hmsgs, call_groq_api, hcond, Bind.bind, Except.bind]

/-- C9 (witness): payload constants and both failure modes at concrete
inputs. -/
theorem C9_witness :
    (call_groq_api_request [] "llama-3.3-70b-versatile").payload.temperature
      = 7/10 ∧
    (call_groq_api_request [] "llama-3.3-70b-versatile").payload.max_tokens
      = 2000 ∧
    (call_groq_api_request [] "llama-3.3-70b-versatile").timeout = 60 ∧
    solve_problem (some "2x") none (fun _ => .networkFailure "timeout") =
      .error (.httpException 500 "Error calling AI service: timeout") ∧
    solve_problem (some "2x") none
        (fun _ => .response 404 ⟨none, none, none⟩) =
      .error (.httpException 500
        ("Error calling AI service: " ++
          ("HTTP status error " ++ toString 404))) := by
  have h := C9_provider_call [] "llama-3.3-70b-versatile" (some "2x") none
    (by decide)
  exact ⟨h.1, h.2.1, h.2.2.1, h.2.2.2.2.2.2.1 "timeout",
    h.2.2.2.2.2.2.2 404 ⟨none, none, none⟩ (by omega)⟩

/-- C10: the empty-string `problem_text` is falsy, so the required-field
check rejects it when no image accompanies it and the image path falls
back to the default English instruction; yet `metadata.has_text` in a
successful response is `problem_text is not None`, hence true whenever the
field was supplied at all — including as the empty string. -/
theorem C10_empty_text (img : UploadFile)
    (oracle : List Message → TransportOutcome) :
    solve_messages (some "") none =
      .error (.httpException 400 "Either problem_text or image must be provided") ∧
    (∃ e, solve_problem (some "") none oracle = .error e) ∧
    solve_messages (some "") (some img) = .ok
      [systemMessage,
       { role := "user", content := .parts
          [.image_url ("data:" ++ img.content_type.getD "image/jpeg" ++
             ";base64," ++ b64encode img.data),
           .text "Solve this math problem from the image."] }] ∧
    (∀ p i rd r, solve_unwrap p i rd = .ok r → r.has_text = p.isSome) ∧
    (∀ c, solve_problem (some "") (some img)
        (fun _ => .response 200 ⟨some [c], none, none⟩) =
      .ok { success := true, solution := c.message.content,
            model := "llama-3.3-70b-versatile", usage := [],
            has_image := true, has_text := true,
            teaching_mode := "adaptive" }) := by
  refine ⟨rfl, ⟨_, rfl⟩, ?_, ?_, fun c => rfl⟩
  · unfold solve_messages
    simp [pyTruthy, systemMessage]
  · intro p i rd r hr
    unfold solve_unwrap at hr
    split at hr <;> simp_all
    exact hr.symm ▸ rfl

/-- C10 (witness): `has_text` is true for a supplied empty string. -/
theorem C10_witness :
    ({ success := true, solution := "s", model := "llama-3.3-70b-versatile",
       usage := [], has_image := true, has_text := true,
       teaching_mode := "adaptive" } : SolveResponse).has_text =
      (some "").isSome :=
  (C10_empty_text ⟨[], none⟩ (fun _ => .networkFailure "x")).2.2.2.1
    (some "") (some ⟨[], none⟩) ⟨some [⟨⟨"s"⟩⟩], none, none⟩ _ rfl

end SyrianMathTutor
